import Mathlib

/-!
Verification development for the Solace client SDK voice-activity-detection
pipeline (`src/vad.ts`, class `VADManager`) and the AES-GCM blob codec
(`src/crypto.ts`, class `CryptoManager`), shallowly embedded in Lean.

The embedding models the host environment (microphone acquisition, the
`AnalyserNode`, the wall clock, and the vendor classifier `vad.isSpeech`)
as explicit inputs, and models the class's mutable fields as an explicit
state record.  Release side effects (`track.stop()`, `audioContext.close()`)
are recorded in an effect trace so that "released exactly once" is provable.
-/

namespace SolaceSDK

/-- Runtime configuration object passed to `new VADManager(config)`.
The TypeScript field types (`0|1|2|3` etc.) are static annotations with no
runtime check, so the runtime value space is arbitrary numbers. -/
structure VADConfig where
  aggressiveness : Nat
  frameDuration : Nat
  sampleRate : Nat
deriving Repr, DecidableEq

/-- The `VADFrame` record yielded by `recordAndDetectVoice`
(`{ frame, timestamp, hasVoice }`); `frame` holds the `Int16Array` contents. -/
structure VADFrame where
  frame : List Int
  timestamp : Nat
  hasVoice : Bool
deriving Repr, DecidableEq

/-- Outcome of one invocation of the vendor classifier `vad.isSpeech`:
either a boolean verdict, or a thrown exception (`err`). -/
inductive ClassifyResult where
  | ok (hasVoice : Bool)
  | err
deriving Repr, DecidableEq

/-- Host-environment data for one iteration of the recording loop:
`freqData` is what `analyser.getByteFrequencyData` fills (one byte per
frequency bin, values 0..255); `rawPCM` is the raw time-domain sample data
the audio source actually captured during the tick (the code never reads
it — it is carried here so theorems can compare it with what the code
feeds the classifier); `classify` is the classifier's behaviour on the
tick; `nowMs` is the value of `Date.now()` at the tick. -/
structure TickInput where
  freqData : List Nat
  rawPCM : List Int
  classify : ClassifyResult
  nowMs : Nat
deriving Repr, DecidableEq

/-- The mutable fields of class `VADManager`.  Handles are identifiers of
host objects (`MediaStream`, `AudioContext`, `AnalyserNode`); `vad` records
whether a WebRTC VAD instance is held.  `mediaRecorder` is omitted: it is
only touched by `recordWithMediaRecorder`, which no claim covers. -/
structure VADManagerState where
  mediaStream : Option Nat
  audioContext : Option Nat
  analyser : Option Nat
  vad : Bool
  isRecording : Bool
  frameQueue : List VADFrame
  config : VADConfig
  startTime : Nat
deriving Repr, DecidableEq

/-- The constructor body (`this.config = config` plus the declared field
initializers).  Note it performs no validation of `config`. -/
def VADManager.new (config : VADConfig) : VADManagerState :=
  { mediaStream := none
    audioContext := none
    analyser := none
    vad := false
    isRecording := false
    frameQueue := []
    config := config
    startTime := 0 }

/-- A thrown `SolaceSDKError` (message and `code` field; the `details`
payload is not modelled). -/
structure RecordError where
  message : String
  code : String
deriving Repr, DecidableEq

/-- Construction of a `VADManager` viewed as a fallible operation, so that
"the constructor rejects" is expressible.  The source constructor body is a
single field assignment and cannot throw, hence this is always `ok`. -/
def vadManagerConstruct (cfg : VADConfig) : Except RecordError VADManagerState :=
  Except.ok (VADManager.new cfg)

/-- One sample of `convertToPCM`: `amplitude = (b - 128) / 128` and
`Math.round(amplitude * 32767)`.  All intermediate doubles are exact
(denominators are powers of two, numerators below 2^53), and JS
`Math.round` rounds half toward positive infinity, i.e.
`⌊x + 1/2⌋ = (2·num + den).fdiv (2·den)` for the exact rational
`x = num/den` with `num = (b-128)·32767`, `den = 128`. -/
def convertToPCMSample (b : Nat) : Int :=
  Int.fdiv (2 * ((b : Int) - 128) * 32767 + 128) 256

/-- `VADManager.convertToPCM`: maps each frequency byte to a 16-bit value. -/
def convertToPCM (frequencyData : List Nat) : List Int :=
  frequencyData.map convertToPCMSample

/-- `VADManager.processAudioFrame`: returns `null` if `analyser` or `vad`
is missing; otherwise reads the analyser's frequency bins, converts them
with `convertToPCM`, calls `vad.isSpeech(pcmData, sampleRate)` (a throw is
caught and turned into `null`), and builds the frame with
`timestamp = Date.now() - startTime`. -/
def processAudioFrame (s : VADManagerState) (startTime : Nat) (t : TickInput) :
    Option VADFrame :=
  if s.analyser = none ∨ s.vad = false then none
  else
    match t.classify with
    | ClassifyResult.err => none
    | ClassifyResult.ok hasVoice =>
        some { frame := convertToPCM t.freqData
               timestamp := t.nowMs - startTime
               hasVoice := hasVoice }

/-- Release side effects performed by `stopRecording`: stopping all tracks
of the media stream, and closing the audio context. -/
inductive ReleaseEffect where
  | stopTracks (handle : Nat)
  | closeContext (handle : Nat)
deriving Repr, DecidableEq

/-- `VADManager.stopRecording`: sets `isRecording = false`; if a media
stream is held, stops its tracks and clears the handle; if an audio context
is held, closes it and clears the handle; clears `analyser` and `vad`.
The returned trace lists the release effects actually performed. -/
def stopRecording (s : VADManagerState) : VADManagerState × List ReleaseEffect :=
  let effTracks : List ReleaseEffect :=
    match s.mediaStream with
    | some h => [ReleaseEffect.stopTracks h]
    | none => []
  let effCtx : List ReleaseEffect :=
    match s.audioContext with
    | some h => [ReleaseEffect.closeContext h]
    | none => []
  ({ s with isRecording := false
            mediaStream := none
            audioContext := none
            analyser := none
            vad := false },
   effTracks ++ effCtx)

/-- The snapshot returned by `VADManager.getRecordingState`. -/
structure RecordingStateView where
  isRecording : Bool
  duration : Nat
deriving Repr, DecidableEq

/-- `VADManager.getRecordingState`: `duration` is
`isRecording ? Date.now() - (this.startTime || Date.now()) : 0`; the
`||` falls back to `Date.now()` exactly when the field is `0` (falsy). -/
def getRecordingState (s : VADManagerState) (now : Nat) : RecordingStateView :=
  { isRecording := s.isRecording
    duration :=
      if s.isRecording then now - (if s.startTime = 0 then now else s.startTime)
      else 0 }

/-- Host-environment data for one whole run of `recordAndDetectVoice`:
whether the dynamic import/construction of the WebRTC VAD succeeds, whether
`getUserMedia` resolves, whether `AudioContext`/`createAnalyser` creation
succeeds, the handles of the acquired host objects, `Date.now()` at the
`const startTime` capture, the per-iteration tick data, and
`stopBefore = some j` when the consumer invokes `stopRecording()` during
the suspension preceding iteration `j` (`none`: the consumer never calls
`stopRecording` and the run ends with the consumer closing the generator,
which runs the `finally` block). -/
structure RecordEnv where
  vadInitOk : Bool
  mediaOk : Bool
  ctxOk : Bool
  streamHandle : Nat
  contextHandle : Nat
  analyserHandle : Nat
  startNow : Nat
  ticks : List TickInput
  stopBefore : Option Nat
deriving Repr, DecidableEq

/-- The error `recordAndDetectVoice` throws from its `catch` block:
`new SolaceSDKError('Failed to start voice recording', 'RECORDING_ERROR',
error)` — the same wrapper regardless of which step inside `try` failed. -/
def recordingError : RecordError :=
  { message := "Failed to start voice recording", code := "RECORDING_ERROR" }

/-- Outcome of a terminated run of `recordAndDetectVoice`: the frames
yielded to the consumer, the final field state, the trace of release
effects, and the error the generator rethrew (if any). -/
structure RecordResult where
  frames : List VADFrame
  finalState : VADManagerState
  effects : List ReleaseEffect
  error : Option RecordError
deriving Repr, DecidableEq

/-- Shared shape of the failure exits of `recordAndDetectVoice`: the
`finally` block runs `stopRecording`, then the wrapped error propagates. -/
def failResult (p : VADManagerState × List ReleaseEffect) : RecordResult :=
  { frames := [], finalState := p.1, effects := p.2, error := some recordingError }

/-- The field state reached inside `recordAndDetectVoice` once the VAD is
initialized, the stream is acquired, the context and analyser are created,
and `this.isRecording = true` is set.  Note `this.startTime` is NOT
assigned anywhere: the function captures `const startTime = Date.now()`
into a local instead. -/
def acquiredState (cfg : VADConfig) (env : RecordEnv) : VADManagerState :=
  { VADManager.new cfg with
      vad := true
      mediaStream := some env.streamHandle
      audioContext := some env.contextHandle
      analyser := some env.analyserHandle
      isRecording := true }

/-- The `while (this.isRecording)` loop: each iteration first observes a
possible consumer-initiated `stopRecording()` (which makes the loop
condition false), then calls `processAudioFrame` and yields the frame if
non-null.  `processAudioFrame` never throws (its `catch` returns `null`),
so the loop only ends through the recording flag. -/
def recordLoop (s : VADManagerState) (startTime : Nat) :
    List TickInput → Option Nat → List VADFrame × VADManagerState × List ReleaseEffect
  | [], _ => ([], s, [])
  | t :: rest, sb =>
    if sb = some 0 then
      let p := stopRecording s
      ([], p.1, p.2)
    else if s.isRecording then
      let r := recordLoop s startTime rest (sb.map (· - 1))
      ((processAudioFrame s startTime t).toList ++ r.1, r.2)
    else ([], s, [])

/-- `VADManager.recordAndDetectVoice` on a freshly constructed manager:
`initializeVAD`, `getUserMedia`, `AudioContext`/`createAnalyser`, then the
processing loop; any failure inside `try` is wrapped as `RECORDING_ERROR`
by `catch`, and `finally` always awaits `stopRecording()`. -/
def recordAndDetectVoice (cfg : VADConfig) (env : RecordEnv) : RecordResult :=
  if env.vadInitOk = false then
    failResult (stopRecording (VADManager.new cfg))
  else if env.mediaOk = false then
    failResult (stopRecording { VADManager.new cfg with vad := true })
  else if env.ctxOk = false then
    failResult (stopRecording
      { VADManager.new cfg with vad := true, mediaStream := some env.streamHandle })
  else
    let r := recordLoop (acquiredState cfg env) env.startNow env.ticks env.stopBefore
    let fin := stopRecording r.2.1
    { frames := r.1, finalState := fin.1, effects := r.2.2 ++ fin.2, error := none }

/-- The ticks the loop actually processes: all of them, or the first `j`
when the consumer stops before iteration `j`. -/
def ticksSeen (ticks : List TickInput) : Option Nat → List TickInput
  | none => ticks
  | some j => ticks.take j

/-- Whether a consumer-initiated `stopRecording()` lands inside the
modelled window (before the tick list is exhausted). -/
def stopHappens (ticks : List TickInput) : Option Nat → Bool
  | none => false
  | some j => Nat.blt j ticks.length

/-- What `processAudioFrame` amounts to while the pipeline is running
(analyser and vad both present). -/
def tickFrame (startTime : Nat) (t : TickInput) : Option VADFrame :=
  match t.classify with
  | ClassifyResult.err => none
  | ClassifyResult.ok hasVoice =>
      some { frame := convertToPCM t.freqData
             timestamp := t.nowMs - startTime
             hasVoice := hasVoice }

/-- Total variant of `tickFrame` (classifier throw mapped to a default
verdict), used to state order-preservation results. -/
def tickFrameD (startTime : Nat) (t : TickInput) : VADFrame :=
  { frame := convertToPCM t.freqData
    timestamp := t.nowMs - startTime
    hasVoice := match t.classify with
                | ClassifyResult.ok v => v
                | ClassifyResult.err => false }

/-! Concrete environments used by witnesses and counterexamples. -/

/-- The spec's scenario configuration: aggressiveness 1, 30 ms frames,
16000 Hz (so the spec's `frameLengthSamples` would be 480). -/
def cfgScenario : VADConfig :=
  { aggressiveness := 1, frameDuration := 30, sampleRate := 16000 }

/-- A runtime configuration outside every allowed set: aggressiveness 9,
frame duration 25 ms, sample rate 44100 Hz. -/
def cfgInvalid : VADConfig :=
  { aggressiveness := 9, frameDuration := 25, sampleRate := 44100 }

/-- A tick whose classifier call succeeds. -/
def exTick (n : Nat) : TickInput :=
  { freqData := [n % 256], rawPCM := [0], classify := ClassifyResult.ok true, nowMs := n }

/-- A tick whose classifier call throws. -/
def exBadTick : TickInput :=
  { freqData := [9], rawPCM := [0], classify := ClassifyResult.err, nowMs := 5 }

/-- A tick carrying the analyser's full bin array: `fftSize = 2048` gives
`frequencyBinCount = 1024`, so `getByteFrequencyData` fills 1024 bytes. -/
def binsTick : TickInput :=
  { freqData := List.replicate 1024 128, rawPCM := [], classify := ClassifyResult.ok true
    nowMs := 0 }

/-- Successful-acquisition environment processing three analyser reads. -/
def envThreeBins : RecordEnv :=
  { vadInitOk := true, mediaOk := true, ctxOk := true, streamHandle := 1, contextHandle := 2
    analyserHandle := 3, startNow := 0, ticks := [binsTick, binsTick, binsTick]
    stopBefore := none }

/-- Ten-tick environment where the classifier throws on the fifth tick. -/
def envTenTicks : RecordEnv :=
  { vadInitOk := true, mediaOk := true, ctxOk := true, streamHandle := 1, contextHandle := 2
    analyserHandle := 3, startNow := 0
    ticks := [exTick 1, exTick 2, exTick 3, exTick 4, exBadTick,
              exTick 6, exTick 7, exTick 8, exTick 9, exTick 10]
    stopBefore := none }

/-- Environment where `getUserMedia` rejects (device unavailable or
permission denied). -/
def envAcqFail : RecordEnv :=
  { vadInitOk := true, mediaOk := false, ctxOk := true, streamHandle := 1, contextHandle := 2
    analyserHandle := 3, startNow := 0, ticks := [], stopBefore := none }

/-- Environment where the WebRTC VAD import fails (a non-acquisition
failure of the same `try` block). -/
def envVadFail : RecordEnv :=
  { vadInitOk := false, mediaOk := true, ctxOk := true, streamHandle := 1, contextHandle := 2
    analyserHandle := 3, startNow := 0, ticks := [], stopBefore := none }

/-- Three-tick environment with a non-decreasing wall clock. -/
def envClock : RecordEnv :=
  { vadInitOk := true, mediaOk := true, ctxOk := true, streamHandle := 1, contextHandle := 2
    analyserHandle := 3, startNow := 4
    ticks := [exTick 5, exTick 5, exTick 9], stopBefore := none }

/-- Tick pair for the classifier-input analysis: identical frequency bins,
different raw time-domain samples. -/
def tickFreqA : TickInput :=
  { freqData := [255, 128, 0], rawPCM := [1000, -2000, 3000]
    classify := ClassifyResult.ok true, nowMs := 7 }

/-- Same frequency bins as `tickFreqA`, different raw samples. -/
def tickFreqB : TickInput :=
  { freqData := [255, 128, 0], rawPCM := [0, 0, 0]
    classify := ClassifyResult.ok true, nowMs := 7 }

/-- One-tick environment for the classifier-input analysis. -/
def envFreq : RecordEnv :=
  { vadInitOk := true, mediaOk := true, ctxOk := true, streamHandle := 1, contextHandle := 2
    analyserHandle := 3, startNow := 0, ticks := [tickFreqA], stopBefore := none }

/-! The AES-GCM blob codec (`src/crypto.ts`). -/

/-- The base64 alphabet used by `btoa`. -/
def base64Table : List Char :=
  "ABCDEFGHIJKLMNOPQRSTUVWXYZabcdefghijklmnopqrstuvwxyz0123456789+/".toList

/-- Character for a 6-bit group. -/
def b64Char (n : Nat) : Char := base64Table.getD n 'A'

/-- Base64 encoding of a byte list (the composition of
`CryptoManager.arrayBufferToBase64`'s byte-to-binary-string loop with
`btoa`). -/
def base64Chunks : List Nat → List Char
  | [] => []
  | [b1] => [b64Char (b1 / 4), b64Char (b1 % 4 * 16), '=', '=']
  | [b1, b2] => [b64Char (b1 / 4), b64Char (b1 % 4 * 16 + b2 / 16),
                 b64Char (b2 % 16 * 4), '=']
  | b1 :: b2 :: b3 :: rest =>
      b64Char (b1 / 4) :: b64Char (b1 % 4 * 16 + b2 / 16) ::
      b64Char (b2 % 16 * 4 + b3 / 64) :: b64Char (b3 % 64) :: base64Chunks rest

/-- `CryptoManager.arrayBufferToBase64` as a string-valued function. -/
def arrayBufferToBase64 (bytes : List Nat) : String :=
  String.mk (base64Chunks bytes)

/-- The UTF-8 bytes produced by `new TextEncoder().encode(data)`. -/
def utf8Bytes (data : String) : List Nat :=
  data.toUTF8.toList.map UInt8.toNat

/-- The envelope returned by `encryptBlob`: three independently
base64-encoded strings and nothing else. -/
structure EncryptedBlob where
  iv : String
  ciphertext : String
  tag : String
deriving Repr, DecidableEq

/-- `CryptoManager.encryptBlob`.  The randomness drawn inside the call is
made explicit: `key` is the fresh AES-256 key `generateKey()` returns and
`iv` the 12 random bytes from `getRandomValues`; `subtleEncrypt` stands for
`crypto.subtle.encrypt` and returns ciphertext with the 16-byte GCM tag
appended.  The code exports the key into a local `keyBuffer` and then
drops it: the returned envelope holds only the three base64 fields, and
the class keeps no state (every member is static). -/
def encryptBlob (subtleEncrypt : List Nat → List Nat → List Nat → List Nat)
    (key : List Nat) (iv : List Nat) (data : String) : EncryptedBlob :=
  let plaintext := utf8Bytes data
  let encrypted := subtleEncrypt key iv plaintext
  let ciphertextLength := encrypted.length - 16
  let ciphertext := encrypted.take ciphertextLength
  let tag := encrypted.drop ciphertextLength
  let _keyBuffer := key
  { iv := arrayBufferToBase64 iv
    ciphertext := arrayBufferToBase64 ciphertext
    tag := arrayBufferToBase64 tag }

/-- A concrete stand-in cipher for witnesses: appends a 16-byte tag and
ignores the key, so two different keys trivially give equal cipher output. -/
def encEx (_key _iv plaintext : List Nat) : List Nat :=
  plaintext ++ List.replicate 16 0

/-! Helper lemmas. -/

theorem filterMap_congr_fun {α β : Type} (f g : α → Option β) (l : List α)
    (h : ∀ a, f a = g a) : l.filterMap f = l.filterMap g := by
  have hfg : f = g := funext h
  rw [hfg]

theorem processAudioFrame_acquired (cfg : VADConfig) (env : RecordEnv) (st : Nat)
    (t : TickInput) :
    processAudioFrame (acquiredState cfg env) st t = tickFrame st t := by
  cases t.classify <;>
    simp [processAudioFrame, acquiredState, VADManager.new, tickFrame]

theorem recordLoop_spec (s : VADManagerState) (st : Nat) (ticks : List TickInput)
    (sb : Option Nat) (hrec : s.isRecording = true) :
    recordLoop s st ticks sb =
      ((ticksSeen ticks sb).filterMap (processAudioFrame s st),
        if stopHappens ticks sb then stopRecording s else (s, [])) := by
  induction ticks generalizing sb with
  | nil =>
      cases sb with
      | none => simp [recordLoop, ticksSeen, stopHappens]
      | some j => simp [recordLoop, ticksSeen, stopHappens, Nat.blt, Nat.ble]
  | cons t rest ih =>
      cases sb with
      | none =>
          rw [recordLoop]
          simp [hrec, ticksSeen, stopHappens, ih none, List.filterMap_cons]
          cases processAudioFrame s st t <;> simp
      | some j =>
          cases j with
          | zero => simp [recordLoop, ticksSeen, stopHappens, Nat.blt, Nat.ble]
          | succ j =>
              rw [recordLoop]
              have hblt : stopHappens (t :: rest) (some (j + 1)) = stopHappens rest (some j) := rfl
              simp [hrec, ticksSeen, hblt, ih (some j), List.filterMap_cons]
              cases processAudioFrame s st t <;> simp

theorem acquiredState_isRecording (cfg : VADConfig) (env : RecordEnv) :
    (acquiredState cfg env).isRecording = true := rfl

theorem recordAndDetectVoice_success (cfg : VADConfig) (env : RecordEnv)
    (hv : env.vadInitOk = true) (hm : env.mediaOk = true) (hc : env.ctxOk = true) :
    (recordAndDetectVoice cfg env).frames =
      (ticksSeen env.ticks env.stopBefore).filterMap (tickFrame env.startNow) ∧
    (recordAndDetectVoice cfg env).error = none := by
  have hfm :
      (ticksSeen env.ticks env.stopBefore).filterMap
          (processAudioFrame (acquiredState cfg env) env.startNow) =
        (ticksSeen env.ticks env.stopBefore).filterMap (tickFrame env.startNow) :=
    filterMap_congr_fun _ _ _ (processAudioFrame_acquired cfg env env.startNow)
  rw [recordAndDetectVoice]
  rw [recordLoop_spec _ _ _ _ (acquiredState_isRecording cfg env)]
  simp [hv, hm, hc, hfm]

/-- C1: the audio capture resource is released on every exit path of the
recording sequence.  For every terminating execution of
`recordAndDetectVoice` — normal completion, consumer-initiated stop at any
point, or a failure thrown from VAD initialization, stream acquisition, or
audio-context creation — the final state holds no media stream, audio
context, analyser or VAD handle and is not recording, and the effect trace
contains the track-stop of the acquired stream exactly once and the close
of the created audio context exactly once (and no release effect at all
for a resource that was never acquired): nothing is leaked and nothing is
released twice. -/
theorem recordAndDetectVoice_releases_exactly_once (cfg : VADConfig) (env : RecordEnv) :
    ((recordAndDetectVoice cfg env).finalState.mediaStream = none ∧
     (recordAndDetectVoice cfg env).finalState.audioContext = none ∧
     (recordAndDetectVoice cfg env).finalState.analyser = none ∧
     (recordAndDetectVoice cfg env).finalState.vad = false ∧
     (recordAndDetectVoice cfg env).finalState.isRecording = false) ∧
    (recordAndDetectVoice cfg env).effects =
      (if env.vadInitOk && env.mediaOk
        then [ReleaseEffect.stopTracks env.streamHandle] else []) ++
      (if env.vadInitOk && env.mediaOk && env.ctxOk
        then [ReleaseEffect.closeContext env.contextHandle] else []) := by
  cases hv : env.vadInitOk <;> cases hm : env.mediaOk <;> cases hc : env.ctxOk <;>
    simp [recordAndDetectVoice, hv, hm, hc, failResult, stopRecording, VADManager.new]
  rw [recordLoop_spec _ _ _ _ (acquiredState_isRecording cfg env)]
  cases hst : stopHappens env.ticks env.stopBefore <;>
    simp [stopRecording, acquiredState, VADManager.new]

/-- C2 counterexample: constructing a `VADManager` with a configuration
outside every allowed set (aggressiveness 9, frame duration 25 ms, sample
rate 44100 Hz) does not reject: the constructor performs no validation, so
the claimed `ConfigError` rejection does not happen. -/
theorem construct_invalid_config_not_rejected :
    (vadManagerConstruct cfgInvalid).isOk = true := rfl

/-- C2 amended: construction never rejects.  For every configuration —
valid or invalid — `new VADManager(config)` succeeds, stores the
configuration unvalidated, and acquires no resource (all handles empty, not
recording).  No `ConfigError` exists in the code; the only guard on the
field values is TypeScript's static type annotation. -/
theorem construct_always_succeeds (cfg : VADConfig) :
    vadManagerConstruct cfg = Except.ok (VADManager.new cfg) ∧
    (VADManager.new cfg).config = cfg ∧
    (VADManager.new cfg).mediaStream = none ∧
    (VADManager.new cfg).audioContext = none ∧
    (VADManager.new cfg).analyser = none ∧
    (VADManager.new cfg).isRecording = false := by
  refine ⟨rfl, rfl, rfl, rfl, rfl, rfl⟩

/-- C5: `stopRecording` is idempotent.  Calling it a second time right
after a completed call returns the state unchanged and performs no release
effect (the handles are already cleared, so neither `track.stop()` nor
`audioContext.close()` runs again), and — being total — it never throws. -/
theorem stopRecording_idempotent (s : VADManagerState) :
    stopRecording (stopRecording s).1 = ((stopRecording s).1, []) := by
  simp [stopRecording]

theorem tickFrame_of_ok (st : Nat) (t : TickInput)
    (h : t.classify ≠ ClassifyResult.err) :
    tickFrame st t = some (tickFrameD st t) := by
  cases hc : t.classify with
  | err => exact absurd hc h
  | ok v => simp [tickFrame, tickFrameD, hc]

theorem filterMap_tickFrame_eq_map (st : Nat) (l : List TickInput)
    (h : ∀ t ∈ l, t.classify ≠ ClassifyResult.err) :
    l.filterMap (tickFrame st) = l.map (tickFrameD st) := by
  induction l with
  | nil => rfl
  | cons a l ih =>
      simp [List.filterMap_cons, tickFrame_of_ok st a (h a (by simp)),
        ih (fun t ht => h t (by simp [ht]))]

/-- C4: a classifier failure on a single frame is not fatal.  In every run
where the classifier throws on exactly one tick, that tick's frame is
absent from the output, no error is surfaced (the generator ends
normally), and every other tick's frame is emitted, present and in the
original order. -/
theorem classifier_failure_not_fatal (cfg : VADConfig) (env : RecordEnv)
    (pre post : List TickInput) (bad : TickInput)
    (hv : env.vadInitOk = true) (hm : env.mediaOk = true) (hc : env.ctxOk = true)
    (hsb : env.stopBefore = none)
    (hticks : env.ticks = pre ++ bad :: post)
    (hbad : bad.classify = ClassifyResult.err)
    (hok : ∀ t ∈ pre ++ post, t.classify ≠ ClassifyResult.err) :
    (recordAndDetectVoice cfg env).error = none ∧
    (recordAndDetectVoice cfg env).frames = (pre ++ post).map (tickFrameD env.startNow) := by
  obtain ⟨hfr, herr⟩ := recordAndDetectVoice_success cfg env hv hm hc
  refine ⟨herr, ?_⟩
  rw [hfr, hsb, hticks]
  have hpre : ∀ t ∈ pre, t.classify ≠ ClassifyResult.err :=
    fun t ht => hok t (List.mem_append_left _ ht)
  have hpost : ∀ t ∈ post, t.classify ≠ ClassifyResult.err :=
    fun t ht => hok t (List.mem_append_right _ ht)
  simp [ticksSeen, List.filterMap_append, List.filterMap_cons, tickFrame, hbad,
    filterMap_tickFrame_eq_map _ pre hpre, filterMap_tickFrame_eq_map _ post hpost]

/-- C4 witness: in the ten-tick run where the classifier throws on the
fifth tick, ticks 1–4 and 6–10 are all emitted in order, tick 5 is absent,
and no error is surfaced. -/
theorem classifier_failure_not_fatal_witness :
    (recordAndDetectVoice cfgScenario envTenTicks).error = none ∧
    (recordAndDetectVoice cfgScenario envTenTicks).frames =
      ([exTick 1, exTick 2, exTick 3, exTick 4,
        exTick 6, exTick 7, exTick 8, exTick 9, exTick 10]).map (tickFrameD 0) :=
  classifier_failure_not_fatal cfgScenario envTenTicks
    [exTick 1, exTick 2, exTick 3, exTick 4]
    [exTick 6, exTick 7, exTick 8, exTick 9, exTick 10] exBadTick
    rfl rfl rfl rfl rfl rfl (by decide)

/-- C6 counterexample: the rejection produced by an acquisition failure is
not an acquisition-specific error.  A failed `getUserMedia` and a failed
WebRTC VAD import (a non-acquisition failure of the same `try` block)
produce the identical generic `SolaceSDKError` with code
`RECORDING_ERROR`, so the surfaced error does not identify acquisition as
the cause as a distinct `AcquisitionError` would. -/
theorem acquisition_error_not_specific :
    (recordAndDetectVoice cfgScenario envAcqFail).error = some recordingError ∧
    (recordAndDetectVoice cfgScenario envVadFail).error = some recordingError ∧
    recordingError.code = "RECORDING_ERROR" :=
  ⟨rfl, rfl, rfl⟩

/-- C6 amended: when audio-source acquisition fails, the recording
sequence rejects with the generic `SolaceSDKError` of code
`RECORDING_ERROR` (not a distinct acquisition error), yields no frame, and
afterwards `getRecordingState` reports not-recording with duration 0, with
the partially held resources released (no stream or context handle
remains). -/
theorem acquisition_failure_rejects_and_releases (cfg : VADConfig) (env : RecordEnv)
    (now : Nat) (hm : env.mediaOk = false) :
    (recordAndDetectVoice cfg env).error = some recordingError ∧
    (recordAndDetectVoice cfg env).frames = [] ∧
    getRecordingState (recordAndDetectVoice cfg env).finalState now =
      { isRecording := false, duration := 0 } ∧
    (recordAndDetectVoice cfg env).finalState.mediaStream = none ∧
    (recordAndDetectVoice cfg env).finalState.audioContext = none := by
  cases hv : env.vadInitOk <;>
    simp [recordAndDetectVoice, hv, hm, failResult, stopRecording, VADManager.new,
      getRecordingState]

/-- C6 amended witness: concrete acquisition-failure run, observed 5000 ms
later. -/
theorem acquisition_failure_witness :
    (recordAndDetectVoice cfgScenario envAcqFail).error = some recordingError ∧
    (recordAndDetectVoice cfgScenario envAcqFail).frames = [] ∧
    getRecordingState (recordAndDetectVoice cfgScenario envAcqFail).finalState 5000 =
      { isRecording := false, duration := 0 } ∧
    (recordAndDetectVoice cfgScenario envAcqFail).finalState.mediaStream = none ∧
    (recordAndDetectVoice cfgScenario envAcqFail).finalState.audioContext = none :=
  acquisition_failure_rejects_and_releases cfgScenario envAcqFail 5000 rfl

theorem tickFrame_eq_tickFrameD (st : Nat) (a : TickInput) (b : VADFrame)
    (h : tickFrame st a = some b) : b = tickFrameD st a := by
  cases hc : a.classify with
  | err => simp [tickFrame, hc] at h
  | ok v =>
      simp [tickFrame, hc] at h
      simp [tickFrameD, hc, ← h]

theorem filterMap_sublist_map {α β : Type} (f : α → Option β) (g : α → β)
    (hfg : ∀ a b, f a = some b → b = g a) (l : List α) :
    List.Sublist (l.filterMap f) (l.map g) := by
  induction l with
  | nil => simp
  | cons a l ih =>
      cases hfa : f a with
      | none =>
          rw [List.filterMap_cons]
          simp only [hfa]
          exact List.Sublist.cons _ ih
      | some b =>
          rw [List.filterMap_cons]
          simp only [hfa]
          rw [hfg a b hfa]
          exact List.Sublist.cons₂ _ ih

theorem ticksSeen_sublist (ticks : List TickInput) (sb : Option Nat) :
    List.Sublist (ticksSeen ticks sb) ticks := by
  cases sb with
  | none => exact List.Sublist.refl _
  | some j => exact List.take_sublist j ticks

/-- C7: classified frames are delivered in non-decreasing timestamp order,
and the delivered sequence is a subsequence (order-preserving, without
duplication) of the frames produced from the tick stream in delivery
order.  The wall clock (`Date.now()`) is assumed non-decreasing across
ticks. -/
theorem frames_timestamps_monotone (cfg : VADConfig) (env : RecordEnv)
    (hmono : List.Chain' (fun a b => a ≤ b) (env.ticks.map TickInput.nowMs)) :
    List.Chain' (fun a b => a ≤ b)
      ((recordAndDetectVoice cfg env).frames.map VADFrame.timestamp) ∧
    List.Sublist (recordAndDetectVoice cfg env).frames
      (env.ticks.filterMap (tickFrame env.startNow)) := by
  cases hv : env.vadInitOk with
  | false => simp [recordAndDetectVoice, hv, failResult]
  | true => cases hm : env.mediaOk with
    | false => simp [recordAndDetectVoice, hv, hm, failResult]
    | true => cases hc : env.ctxOk with
      | false => simp [recordAndDetectVoice, hv, hm, hc, failResult]
      | true =>
          obtain ⟨hfr, -⟩ := recordAndDetectVoice_success cfg env hv hm hc
          rw [hfr]
          constructor
          · have hsub1 : List.Sublist
                ((ticksSeen env.ticks env.stopBefore).filterMap (tickFrame env.startNow))
                ((ticksSeen env.ticks env.stopBefore).map (tickFrameD env.startNow)) :=
              filterMap_sublist_map _ _ (tickFrame_eq_tickFrameD env.startNow) _
            have hsub2 :=
              (ticksSeen_sublist env.ticks env.stopBefore).map (tickFrameD env.startNow)
            have hts := (hsub1.trans hsub2).map VADFrame.timestamp
            rw [List.map_map] at hts
            have hcomp : (VADFrame.timestamp ∘ tickFrameD env.startNow) =
                fun t => t.nowMs - env.startNow := rfl
            rw [hcomp] at hts
            have hpw : List.Pairwise (fun a b => a ≤ b) (env.ticks.map TickInput.nowMs) :=
              List.chain'_iff_pairwise.mp hmono
            have hpw2 : List.Pairwise (fun a b : TickInput => a.nowMs ≤ b.nowMs) env.ticks :=
              List.pairwise_map.mp hpw
            have hpw3 : List.Pairwise (fun a b => a ≤ b)
                (env.ticks.map (fun t => t.nowMs - env.startNow)) :=
              List.Pairwise.map _ (fun a b hab => Nat.sub_le_sub_right hab _) hpw2
            exact List.chain'_iff_pairwise.mpr (hpw3.sublist hts)
          · exact (ticksSeen_sublist env.ticks env.stopBefore).filterMap _

/-- C7 witness: a three-tick run with clock values 5, 5, 9. -/
theorem frames_timestamps_monotone_witness :
    List.Chain' (fun a b => a ≤ b)
      ((recordAndDetectVoice cfgScenario envClock).frames.map VADFrame.timestamp) ∧
    List.Sublist (recordAndDetectVoice cfgScenario envClock).frames
      (envClock.ticks.filterMap (tickFrame envClock.startNow)) :=
  frames_timestamps_monotone cfgScenario envClock
    (by simp [envClock, exTick, List.chain'_cons])

theorem convertToPCM_length (l : List Nat) : (convertToPCM l).length = l.length :=
  List.length_map _ _

theorem tickFrame_frame_length (st : Nat) (t : TickInput) (f : VADFrame)
    (h : tickFrame st t = some f) : f.frame.length = t.freqData.length := by
  rw [tickFrame_eq_tickFrameD st t f h]
  exact convertToPCM_length t.freqData

/-- C3 counterexample: with the spec's scenario configuration (which would
give `frameLengthSamples = 480` at 30 ms / 16000 Hz) and three processing
iterations, the pipeline emits three frames of 1024 samples each — one
frame per analyser read, sized by the analyser's bin count — not the
claimed single 480-sample frame with 120 samples retained in residue (no
residue mechanism exists). -/
theorem three_reads_three_frames :
    (recordAndDetectVoice cfgScenario envThreeBins).frames.length = 3 ∧
    ((recordAndDetectVoice cfgScenario envThreeBins).frames.map fun f => f.frame.length) =
      [1024, 1024, 1024] ∧
    (recordAndDetectVoice cfgScenario envThreeBins).frames.length ≠ 1 := by
  obtain ⟨hfr, -⟩ := recordAndDetectVoice_success cfgScenario envThreeBins rfl rfl rfl
  have hb : tickFrame (0 : Nat) binsTick = some (tickFrameD 0 binsTick) :=
    tickFrame_of_ok _ _ (by decide)
  have hlist : (ticksSeen envThreeBins.ticks envThreeBins.stopBefore).filterMap
      (tickFrame envThreeBins.startNow) =
      [tickFrameD 0 binsTick, tickFrameD 0 binsTick, tickFrameD 0 binsTick] := by
    show List.filterMap (tickFrame 0) (ticksSeen [binsTick, binsTick, binsTick] none) = _
    simp only [ticksSeen, List.filterMap_cons, List.filterMap_nil, hb]
  have hlen : (tickFrameD 0 binsTick).frame.length = 1024 := by
    show (convertToPCM binsTick.freqData).length = 1024
    rw [convertToPCM_length,
      show binsTick.freqData = List.replicate 1024 128 from rfl,
      List.length_replicate]
  rw [hfr, hlist]
  refine ⟨rfl, ?_, by decide⟩
  simp [hlen]

/-- C3 amended: the pipeline performs no chunk segmentation.  Every
emitted frame comes from exactly one processing iteration and its sample
count equals the number of frequency bins read from the analyser on that
iteration (1024 for the configured `fftSize` of 2048), independent of the
configured frame duration and sample rate; each iteration emits at most
one frame and nothing is buffered as residue between iterations. -/
theorem no_segmentation (cfg : VADConfig) (env : RecordEnv)
    (hv : env.vadInitOk = true) (hm : env.mediaOk = true) (hc : env.ctxOk = true) :
    (recordAndDetectVoice cfg env).frames =
      (ticksSeen env.ticks env.stopBefore).filterMap (tickFrame env.startNow) ∧
    ∀ f ∈ (recordAndDetectVoice cfg env).frames,
      ∃ t ∈ ticksSeen env.ticks env.stopBefore,
        tickFrame env.startNow t = some f ∧ f.frame.length = t.freqData.length := by
  obtain ⟨hfr, -⟩ := recordAndDetectVoice_success cfg env hv hm hc
  refine ⟨hfr, ?_⟩
  intro f hf
  rw [hfr] at hf
  obtain ⟨t, ht, hft⟩ := List.mem_filterMap.mp hf
  exact ⟨t, ht, hft, tickFrame_frame_length _ _ _ hft⟩

/-- C3 amended witness: the three-analyser-read run. -/
theorem no_segmentation_witness :
    (recordAndDetectVoice cfgScenario envThreeBins).frames =
      (ticksSeen envThreeBins.ticks envThreeBins.stopBefore).filterMap
        (tickFrame envThreeBins.startNow) ∧
    ∀ f ∈ (recordAndDetectVoice cfgScenario envThreeBins).frames,
      ∃ t ∈ ticksSeen envThreeBins.ticks envThreeBins.stopBefore,
        tickFrame envThreeBins.startNow t = some f ∧
        f.frame.length = t.freqData.length :=
  no_segmentation cfgScenario envThreeBins rfl rfl rfl

/-- C8 (code bug): `getRecordingState().duration` is 0 even while
recording.  The field `this.startTime` is never assigned (the generator
captures `const startTime = Date.now()` into a local instead), so during
recording the accessor computes `Date.now() - (0 || Date.now()) = 0`
regardless of the elapsed time; outside recording it returns 0 as claimed.
The final conjunct records that no run ever writes the field. -/
theorem duration_zero_while_recording (cfg : VADConfig) (env : RecordEnv) (now : Nat) :
    (acquiredState cfg env).isRecording = true ∧
    (acquiredState cfg env).startTime = 0 ∧
    getRecordingState (acquiredState cfg env) now =
      { isRecording := true, duration := 0 } ∧
    getRecordingState (VADManager.new cfg) now =
      { isRecording := false, duration := 0 } ∧
    (recordAndDetectVoice cfg env).finalState.startTime = 0 := by
  refine ⟨rfl, rfl, ?_, rfl, ?_⟩
  · simp [getRecordingState, acquiredState, VADManager.new]
  · cases hv : env.vadInitOk <;> cases hm : env.mediaOk <;> cases hc : env.ctxOk <;>
      simp [recordAndDetectVoice, hv, hm, hc, failResult, stopRecording, VADManager.new]
    rw [recordLoop_spec _ _ _ _ (acquiredState_isRecording cfg env)]
    cases hst : stopHappens env.ticks env.stopBefore <;>
      simp [stopRecording, acquiredState, VADManager.new]

/-- C9 (code bug): the data handed to the classifier `vad.isSpeech` is
`convertToPCM(analyser frequency bins)` — frequency-domain magnitudes
rescaled to 16-bit values — never the raw time-domain PCM samples the
audio source captured.  On a tick whose bins are `[255, 128, 0]` the
classifier receives `[32511, 0, -32767]`; two ticks with identical bins
but different raw samples are processed identically, and the value fed to
the classifier differs from the raw samples. -/
theorem classifier_receives_frequency_bins :
    processAudioFrame (acquiredState cfgScenario envFreq) 0 tickFreqA =
      some { frame := convertToPCM tickFreqA.freqData, timestamp := 7, hasVoice := true } ∧
    convertToPCM tickFreqA.freqData = [32511, 0, -32767] ∧
    processAudioFrame (acquiredState cfgScenario envFreq) 0 tickFreqA =
      processAudioFrame (acquiredState cfgScenario envFreq) 0 tickFreqB ∧
    tickFreqA.rawPCM ≠ tickFreqB.rawPCM ∧
    convertToPCM tickFreqA.freqData ≠ tickFreqA.rawPCM := by
  decide

/-- C10: `encryptBlob` draws a fresh key inside the call and returns an
envelope holding exactly the three independently base64-encoded fields
`iv`, `ciphertext` and `tag`; the key influences the envelope only through
the cipher output (two keys with equal cipher output give identical
envelopes), the exported `keyBuffer` is dropped, and no state is kept, so
the envelope alone carries no key material for `decryptBlob`. -/
theorem encryptBlob_envelope_no_key
    (subtleEncrypt : List Nat → List Nat → List Nat → List Nat)
    (k1 k2 iv : List Nat) (data : String)
    (h : subtleEncrypt k1 iv (utf8Bytes data) = subtleEncrypt k2 iv (utf8Bytes data)) :
    encryptBlob subtleEncrypt k1 iv data = encryptBlob subtleEncrypt k2 iv data ∧
    encryptBlob subtleEncrypt k1 iv data =
      { iv := arrayBufferToBase64 iv
        ciphertext := arrayBufferToBase64 ((subtleEncrypt k1 iv (utf8Bytes data)).take
          ((subtleEncrypt k1 iv (utf8Bytes data)).length - 16))
        tag := arrayBufferToBase64 ((subtleEncrypt k1 iv (utf8Bytes data)).drop
          ((subtleEncrypt k1 iv (utf8Bytes data)).length - 16)) } := by
  constructor
  · simp [encryptBlob, h]
  · rfl

/-- C10 witness: a concrete cipher that ignores the key, two distinct
keys, a 1-byte IV stand-in and the plaintext "hi". -/
theorem encryptBlob_witness :
    encryptBlob encEx [1] [7] "hi" = encryptBlob encEx [2] [7] "hi" ∧
    encryptBlob encEx [1] [7] "hi" =
      { iv := arrayBufferToBase64 [7]
        ciphertext := arrayBufferToBase64 ((encEx [1] [7] (utf8Bytes "hi")).take
          ((encEx [1] [7] (utf8Bytes "hi")).length - 16))
        tag := arrayBufferToBase64 ((encEx [1] [7] (utf8Bytes "hi")).drop
          ((encEx [1] [7] (utf8Bytes "hi")).length - 16)) } :=
  encryptBlob_envelope_no_key encEx [1] [2] [7] "hi" rfl

end SolaceSDK
